import Mathlib

/-
Verification of the law-buddy document-intake and storage layer.

The development shallowly embeds the TypeScript sources:
  server/openai.ts   (analyzeLegalDocument, checkRule12b6Compliance, learnFromDocument)
  server/upload.ts   (multer fileFilter, extractTextFromFile)
  server/routes.ts   (POST /api/documents/upload handler)
  server/storage.ts  (DatabaseStorage: updateCase, getUpcomingDeadlines, getChatMessages)
External effects (the hosted LLM call, the PDF/DOCX parsing libraries, the
database) are modelled as explicit environment values describing the outcome
of each awaited call; the embedded functions are the repository's own control
flow over those outcomes.
-/

namespace LawBuddy

/-- JSON values, the possible results of the host runtime's JSON.parse. -/
inductive Json where
  | null
  | bool (b : Bool)
  | num (n : Int)
  | str (s : String)
  | arr (elems : List Json)
  | obj (fields : List (String × Json))

/-- Boolean success test for an Except value (true on ok, false on error). -/
def exceptOk {ε α : Type} : Except ε α → Bool
  | .ok _ => true
  | .error _ => false

/-
Outcome of one chat-completion call, as observed by the repository code.
The code reads response.choices0.message.content (a string or null) and then
runs JSON.parse(content or the two-character empty-object literal).
  callError : the awaited openai.chat.completions.create call threw;
  noContent : the call returned but content was null or the empty string
              (falsy), so the code parses the empty-object literal;
  badJson   : content was a non-empty string that is not valid JSON, so
              JSON.parse throws;
  goodJson v: content was a non-empty string that JSON.parse turns into v.
-/
inductive LlmOutcome where
  | callError
  | noContent
  | badJson
  | goodJson (v : Json)

/-- Embeds analyzeLegalDocument from server/openai.ts: the try block awaits
the completion call and returns JSON.parse of the (defaulted) content; the
catch block rethrows a fixed error. No shape validation is performed, and a
null/empty content is replaced by the empty-object literal before parsing. -/
def analyzeLegalDocument : LlmOutcome → Except String Json
  | .callError => .error "Failed to analyze document with AI"
  | .noContent => .ok (Json.obj [])
  | .badJson => .error "Failed to analyze document with AI"
  | .goodJson v => .ok v

/-- Embeds checkRule12b6Compliance from server/openai.ts; identical control
flow to analyzeLegalDocument with its own catch-block message. -/
def checkRule12b6Compliance : LlmOutcome → Except String Json
  | .callError => .error "Failed to check compliance"
  | .noContent => .ok (Json.obj [])
  | .badJson => .error "Failed to check compliance"
  | .goodJson v => .ok v

/-- The try block of learnFromDocument in server/openai.ts: awaits the
completion call and parses the (defaulted) content, so it can raise exactly
when the call errors or the content is invalid JSON. -/
def learnFromDocumentTry : LlmOutcome → Except String Json
  | .callError => .error "Learning system error"
  | .noContent => .ok (Json.obj [])
  | .badJson => .error "Learning system error"
  | .goodJson v => .ok v

/-- Embeds learnFromDocument from server/openai.ts: the catch block maps any
raised error to null instead of rethrowing. -/
def learnFromDocument (o : LlmOutcome) : Option Json :=
  match learnFromDocumentTry o with
  | .error _ => none
  | .ok v => some v

/-
String helpers mirroring the JavaScript primitives the sources use.
-/

/-- Substring containment, modelling JavaScript String.prototype.includes. -/
def strContains (hay needle : String) : Bool :=
  decide (needle.data <:+: hay.data)

/-- Suffix test, modelling JavaScript String.prototype.endsWith. -/
def strEndsWith (s suffix : String) : Bool :=
  decide (suffix.data <:+ s.data)

/-- Character-wise lower-casing, modelling String.prototype.toLowerCase on
the ASCII identifiers and file names the code compares. -/
def lowerStr (s : String) : String :=
  String.mk (s.data.map Char.toLower)

/-- Whitespace test for one character, as removed by String.prototype.trim. -/
def isJsWhitespace (c : Char) : Bool :=
  c == ' ' || c == '\t' || c == '\n' || c == '\r' || c == '\x0b' || c == '\x0c'

/-- Models the emptiness guard pattern of the sources: a string is blank when
it is falsy (empty) or trims to length zero, i.e. every character is
whitespace. -/
def isBlank (s : String) : Bool :=
  s.data.all isJsWhitespace

/-- Truthiness of an optional string field of a request body: undefined and
the empty string are falsy, every other string is truthy. -/
def isTruthyOptStr : Option String → Bool
  | none => false
  | some s => s != ""

/-
server/upload.ts : multer fileFilter and extractTextFromFile.
-/

/-- MIME types accepted by the multer fileFilter in server/upload.ts. -/
def allowedTypes : List String :=
  ["text/plain",
   "application/pdf",
   "application/vnd.openxmlformats-officedocument.wordprocessingml.document"]

/-- File extensions also accepted by the fileFilter. -/
def allowedExtensions : List String :=
  [".txt", ".pdf", ".docx"]

/-- Index of the last dot character in a list of characters, or none,
modelling String.prototype.lastIndexOf applied to a dot. -/
def lastDotIdx (cs : List Char) : Option Nat :=
  ((List.range cs.length).filter (fun i => cs.getD i ' ' == '.')).getLast?

/-- Models the fileFilter expression
originalname.toLowerCase().slice(originalname.lastIndexOf(".")): the
lower-cased tail from the last dot; when there is no dot, lastIndexOf yields
minus one and slice keeps just the final character. -/
def fileExtensionOf (name : String) : String :=
  let lower := name.data.map Char.toLower
  match lastDotIdx name.data with
  | some i => String.mk (lower.drop i)
  | none => String.mk (lower.drop (lower.length - 1))

/-- Embeds the multer fileFilter of server/upload.ts: a file is accepted when
its declared MIME type is in allowedTypes or its extension is in
allowedExtensions; otherwise the filter calls back with an error. -/
def fileFilterAccepts (mimetype originalname : String) : Bool :=
  allowedTypes.contains mimetype || allowedExtensions.contains (fileExtensionOf originalname)

/-- The three recognized document kinds of extractTextFromFile. -/
inductive MediaKind where
  | pdf
  | docx
  | txt
deriving Repr, DecidableEq

/-- Guard of the first branch of extractTextFromFile: declared PDF MIME type
or a file name whose lower-cased form ends in the pdf extension. -/
def matchesPdf (mimetype name : String) : Bool :=
  mimetype == "application/pdf" || strEndsWith (lowerStr name) ".pdf"

/-- Guard of the second branch: DOCX MIME type or docx extension. -/
def matchesDocx (mimetype name : String) : Bool :=
  mimetype == "application/vnd.openxmlformats-officedocument.wordprocessingml.document"
    || strEndsWith (lowerStr name) ".docx"

/-- Guard of the third branch: plain-text MIME type or txt extension. -/
def matchesTxt (mimetype name : String) : Bool :=
  mimetype == "text/plain" || strEndsWith (lowerStr name) ".txt"

/-- Branch dispatch of extractTextFromFile, in source order: PDF first, then
DOCX, then plain text; none when no guard matches. -/
def mediaKindOf (mimetype name : String) : Option MediaKind :=
  if matchesPdf mimetype name then some .pdf
  else if matchesDocx mimetype name then some .docx
  else if matchesTxt mimetype name then some .txt
  else none

/-- Outcomes of the awaited parsing-library calls on the uploaded buffer:
pdfParse and mammoth.extractRawText may throw (error carries the thrown
message), while Buffer.toString with utf-8 is total. -/
structure ExtractEnv where
  pdfResult : Except String String
  docxResult : Except String String
  txtText : String

/-- Message of the unsupported-type error thrown inside the try block. -/
def unsupportedMsg (mimetype : String) : String :=
  "Unsupported file type: " ++ mimetype ++ ". Please use TXT, PDF, or DOCX format."

/-- Message of the empty-content error thrown inside the try block. -/
def emptyContentMsg : String :=
  "No text content found in file. The file may be empty or corrupted."

/-- Message built by the catch block of extractTextFromFile, wrapping the
inner error's message. -/
def wrapExtractError (name msg : String) : String :=
  "Failed to extract text from " ++ name ++ ": " ++ msg

/-- The branch body of extractTextFromFile before the emptiness guard: the
text produced by the branch selected by mediaKindOf, or the error that branch
throws (a parser error, or the unsupported-type error). -/
def rawExtract (env : ExtractEnv) (mimetype name : String) : Except String String :=
  match mediaKindOf mimetype name with
  | some .pdf => env.pdfResult
  | some .docx => env.docxResult
  | some .txt => .ok env.txtText
  | none => .error (unsupportedMsg mimetype)

/-- Embeds extractTextFromFile of server/upload.ts: run the selected branch,
throw the empty-content error when the extracted text is blank, and let the
catch block wrap every thrown message with the file name. -/
def extractTextFromFile (env : ExtractEnv) (mimetype name : String) : Except String String :=
  match rawExtract env mimetype name with
  | .error e => .error (wrapExtractError name e)
  | .ok t =>
    if isBlank t then .error (wrapExtractError name emptyContentMsg)
    else .ok t

/-
shared/schema.ts and server/storage.ts : entity records and the
DatabaseStorage operations the claims are about. Timestamps are modelled as
integer milliseconds since the epoch.
-/

/-- A row of the cases table (shared/schema.ts). -/
structure Case where
  id : String
  title : String
  caseNumber : Option String
  plaintiff : String
  defendant : String
  jurisdiction : String
  status : String
  description : Option String
  createdAt : Int
  updatedAt : Int
deriving Repr, DecidableEq

/-- A partial update payload for updateCase, typed Partial of InsertCase in
the source: each insertable column is either absent (undefined, left out of
the update set) or present with a value; the nullable columns caseNumber and
description carry an optional value when present. The id and the timestamp
columns are omitted from InsertCase by the insert schema. -/
structure CasePatch where
  title : Option String
  caseNumber : Option (Option String)
  plaintiff : Option String
  defendant : Option String
  jurisdiction : Option String
  status : Option String
  description : Option (Option String)
deriving Repr, DecidableEq

/-- The update set built by DatabaseStorage.updateCase: spread the payload
over the existing row and overwrite updatedAt with the current time. -/
def applyCasePatch (now : Int) (c : Case) (p : CasePatch) : Case :=
  { c with
    title := p.title.getD c.title
    caseNumber := p.caseNumber.getD c.caseNumber
    plaintiff := p.plaintiff.getD c.plaintiff
    defendant := p.defendant.getD c.defendant
    jurisdiction := p.jurisdiction.getD c.jurisdiction
    status := p.status.getD c.status
    description := p.description.getD c.description
    updatedAt := now }

/-- Embeds DatabaseStorage.updateCase over a table of rows with unique ids:
update-where-id-equals with returning, yielding the updated row (or none when
the id matches no row) together with the new table state. -/
def updateCase (now : Int) (table : List Case) (id : String) (p : CasePatch) :
    Option Case × List Case :=
  match table.find? (fun c => c.id == id) with
  | none => (none, table)
  | some c =>
    (some (applyCasePatch now c p),
     table.map (fun c0 => if c0.id == id then applyCasePatch now c0 p else c0))

/-- A row of the deadlines table (shared/schema.ts). -/
structure Deadline where
  id : String
  caseId : String
  title : String
  description : Option String
  dueDate : Int
  deadlineType : String
  isCompleted : Bool
  reminderSent : Bool
  createdAt : Int
deriving Repr, DecidableEq

/-- Ascending due-date order used by the deadline queries' orderBy. -/
def dueLe (a b : Deadline) : Prop := a.dueDate ≤ b.dueDate

instance : DecidableRel dueLe :=
  fun a b => inferInstanceAs (Decidable (a.dueDate ≤ b.dueDate))

instance : IsTotal Deadline dueLe := ⟨fun a b => Int.le_total a.dueDate b.dueDate⟩

instance : IsTrans Deadline dueLe := ⟨fun _ _ _ => Int.le_trans⟩

/-- Milliseconds in one day. -/
def msPerDay : Int := 86400000

/-- The where-clause of getUpcomingDeadlines: isCompleted equals false, due
date at least now, due date strictly before thirty days from now. -/
def upcomingPred (now : Int) (d : Deadline) : Bool :=
  d.isCompleted == false && decide (now ≤ d.dueDate)
    && decide (d.dueDate < now + 30 * msPerDay)

/-- Embeds DatabaseStorage.getUpcomingDeadlines: select rows satisfying the
where-clause, ordered by ascending due date. -/
def getUpcomingDeadlines (now : Int) (table : List Deadline) : List Deadline :=
  List.insertionSort dueLe (table.filter (upcomingPred now))

/-- A row of the chat-messages table (shared/schema.ts); sources and
metadata are opaque optional JSON columns. -/
structure ChatMessage where
  id : String
  caseId : Option String
  role : String
  content : String
  createdAt : Int
deriving Repr, DecidableEq

/-- Ascending creation-time order used by the chat queries' orderBy. -/
def createdLe (a b : ChatMessage) : Prop := a.createdAt ≤ b.createdAt

instance : DecidableRel createdLe :=
  fun a b => inferInstanceAs (Decidable (a.createdAt ≤ b.createdAt))

instance : IsTotal ChatMessage createdLe := ⟨fun a b => Int.le_total a.createdAt b.createdAt⟩

instance : IsTrans ChatMessage createdLe := ⟨fun _ _ _ => Int.le_trans⟩

/-- Embeds DatabaseStorage.getChatMessages: a truthy caseId (a non-empty
string) selects rows whose caseId column equals it; a falsy caseId (null, or
the empty string, both falsy in the source's if) selects rows whose caseId
column is null. Both branches order by ascending creation time. -/
def getChatMessages (table : List ChatMessage) (caseId : Option String) : List ChatMessage :=
  if isTruthyOptStr caseId then
    List.insertionSort createdLe (table.filter (fun m => m.caseId == caseId))
  else
    List.insertionSort createdLe (table.filter (fun m => m.caseId == none))

/-
server/routes.ts : POST /api/documents/upload. The handler is a function of
the parsed request and an environment recording the outcome of each awaited
external call; its result is the HTTP status, the response document (when
created), and the list of store inserts it performed, in order.
-/

/-- The multer file object visible to the handler. -/
structure FilePart where
  originalname : String
  mimetype : String
  size : Nat
deriving Repr, DecidableEq

/-- The fields of the upload request the handler reads; body fields are
optional strings (absent means undefined). -/
structure UploadRequest where
  file : Option FilePart
  caseId : Option String
  title : Option String
  documentType : Option String
  content : Option String

/-- Outcomes of the awaited external calls made by the upload handler. -/
structure UploadEnv where
  caseLookup : Option Case
  extract : ExtractEnv
  analyzeOutcome : LlmOutcome
  complianceOutcome : LlmOutcome
  learnOutcome : LlmOutcome
  learningInsertFails : Bool

/-- The insert payload passed to storage.createDocument by the handler. -/
structure DocumentRec where
  caseId : String
  title : String
  documentType : String
  content : String
  fileName : Option String
  fileSize : Option Nat
  aiAnalysis : Option Json
  complianceCheck : Option Json

/-- The insert payload passed to storage.createLearningData by the handler. -/
structure LearningDataRec where
  category : String
  jurisdiction : String
  documentType : String
  patterns : Json
  successMetrics : Json

/-- One store insert performed by the upload handler. -/
inductive StoreWrite where
  | insertLearning (rec : LearningDataRec)
  | insertDocument (rec : DocumentRec)

/-- What the AI-analysis block of the handler produced: the two analysis
values still bound after the block's catch, whether the compliance and
learning calls were reached, and the learning inserts performed. -/
structure AiStepResult where
  aiAnalysis : Option Json
  complianceCheck : Option Json
  complianceInvoked : Bool
  learnInvoked : Bool
  writes : List StoreWrite

/-- Embeds the try/catch AI-analysis block of the upload handler
(server/routes.ts): analyze first; only on success and only for a document
type whose lower-cased form contains the substring complaint, run the
compliance check; only on its success, run learnFromDocument and, when it
returns non-null, insert a learning-data row. Any throw inside the block is
caught, keeping whichever of the two analysis variables were already
assigned. -/
def aiStep (env : UploadEnv) (caseItem : Case) (documentType : String) : AiStepResult :=
  match analyzeLegalDocument env.analyzeOutcome with
  | .error _ => ⟨none, none, false, false, []⟩
  | .ok a =>
    if strContains (lowerStr documentType) "complaint" then
      match checkRule12b6Compliance env.complianceOutcome with
      | .error _ => ⟨some a, none, true, false, []⟩
      | .ok cc =>
        match learnFromDocument env.learnOutcome with
        | none => ⟨some a, some cc, true, true, []⟩
        | some lp =>
          if env.learningInsertFails then ⟨some a, some cc, true, true, []⟩
          else
            ⟨some a, some cc, true, true,
             [.insertLearning ⟨"document_quality", caseItem.jurisdiction, documentType, lp, cc⟩]⟩
    else ⟨some a, none, false, false, []⟩

/-- The result of one request to the upload route. -/
structure UploadResult where
  status : Nat
  body : Option DocumentRec
  writes : List StoreWrite

/-- The text-obtaining step of the handler: manual content when no file was
uploaded and content is truthy; extraction when a file was uploaded; a 400
otherwise, and a 400 when extraction throws. -/
def obtainText (req : UploadRequest) (env : UploadEnv) : Except Nat String :=
  match req.file, req.content with
  | none, some c => if c != "" then .ok c else .error 400
  | none, none => .error 400
  | some f, _ =>
    match extractTextFromFile env.extract f.mimetype f.originalname with
    | .ok t => .ok t
    | .error _ => .error 400

/-- Embeds the POST /api/documents/upload handler body of server/routes.ts:
validate the three required body fields, resolve the case, obtain text,
reject blank text, run the AI block, then insert and return the document. -/
def uploadHandler (req : UploadRequest) (env : UploadEnv) : UploadResult :=
  if !(isTruthyOptStr req.caseId) || !(isTruthyOptStr req.title)
      || !(isTruthyOptStr req.documentType) then
    ⟨400, none, []⟩
  else
    match env.caseLookup with
    | none => ⟨404, none, []⟩
    | some caseItem =>
      match obtainText req env with
      | .error s => ⟨s, none, []⟩
      | .ok text =>
        if isBlank text then ⟨400, none, []⟩
        else
          let ai := aiStep env caseItem (req.documentType.getD "")
          let doc : DocumentRec :=
            { caseId := req.caseId.getD ""
              title := req.title.getD ""
              documentType := req.documentType.getD ""
              content := text
              fileName :=
                match req.file with
                | some f => if f.originalname != "" then some f.originalname else none
                | none => none
              fileSize :=
                match req.file with
                | some f => if f.size != 0 then some f.size else none
                | none => none
              aiAnalysis := ai.aiAnalysis
              complianceCheck := ai.complianceCheck }
          ⟨201, some doc, ai.writes ++ [.insertDocument doc]⟩

/-- The upload route including the multer middleware: when a file is present
the fileFilter runs first, and a rejected file makes multer raise before the
handler body, so the express error handler answers with status 500 and no
store write happens. -/
def uploadRoute (req : UploadRequest) (env : UploadEnv) : UploadResult :=
  match req.file with
  | some f =>
    if fileFilterAccepts f.mimetype f.originalname then uploadHandler req env
    else ⟨500, none, []⟩
  | none => uploadHandler req env

/-
Theorems for the claims.
-/

/-- Claim C1 as stated is false at an explicit input: when the external
service returns no content, analyzeLegalDocument parses the defaulted
empty-object literal and returns the empty JSON object, a value, instead of
failing with an AnalysisUnavailable-class error. -/
theorem C1_counterexample :
    analyzeLegalDocument LlmOutcome.noContent = Except.ok (Json.obj [])
    ∧ exceptOk (analyzeLegalDocument LlmOutcome.noContent) = true :=
  ⟨rfl, rfl⟩

/-- Claim C1, amended: analyzeLegalDocument and checkRule12b6Compliance fail
(with their fixed wrapped error) exactly when the external call errors or the
returned content is a non-empty string that is not valid JSON; when the
service returns no content they return the empty JSON object, and any content
that parses as JSON is returned as-is, without validation of its shape. -/
theorem C1_llm_failure_semantics (o : LlmOutcome) :
    (exceptOk (analyzeLegalDocument o) = false ↔ (o = .callError ∨ o = .badJson))
    ∧ (exceptOk (checkRule12b6Compliance o) = false ↔ (o = .callError ∨ o = .badJson))
    ∧ analyzeLegalDocument LlmOutcome.noContent = Except.ok (Json.obj [])
    ∧ checkRule12b6Compliance LlmOutcome.noContent = Except.ok (Json.obj [])
    ∧ (∀ v, analyzeLegalDocument (LlmOutcome.goodJson v) = Except.ok v)
    ∧ (∀ v, checkRule12b6Compliance (LlmOutcome.goodJson v) = Except.ok v) := by
  refine ⟨?_, ?_, rfl, rfl, fun v => rfl, fun v => rfl⟩ <;>
    cases o <;> simp [analyzeLegalDocument, checkRule12b6Compliance, exceptOk]

/-- Witness for C1_llm_failure_semantics at the call-error outcome. -/
theorem C1_llm_failure_semantics_witness :
    exceptOk (analyzeLegalDocument LlmOutcome.callError) = false :=
  (C1_llm_failure_semantics LlmOutcome.callError).1.mpr (Or.inl rfl)

/-- Claim C7: learnFromDocument never propagates an error: whenever its try
block raises (external call error, or unparseable content), the catch returns
null; when the try block succeeds its value is returned; and the null result
happens exactly on those two failure outcomes. -/
theorem C7_learn_best_effort (o : LlmOutcome) :
    (exceptOk (learnFromDocumentTry o) = false → learnFromDocument o = none)
    ∧ (∀ v, learnFromDocumentTry o = Except.ok v → learnFromDocument o = some v)
    ∧ (learnFromDocument o = none ↔ (o = .callError ∨ o = .badJson)) := by
  cases o <;> simp [learnFromDocument, learnFromDocumentTry, exceptOk]

/-- Witness for C7_learn_best_effort at the call-error outcome. -/
theorem C7_learn_best_effort_witness :
    learnFromDocument LlmOutcome.callError = none :=
  (C7_learn_best_effort LlmOutcome.callError).1 rfl

/-- Claim C10: media-kind dispatch in extractTextFromFile tests PDF first,
then DOCX, then plain text, each guard matching on MIME type or filename
extension; a buffer declared text/plain but named with a pdf extension is
routed to the PDF parser, so the declared MIME type alone does not determine
the extraction path. -/
theorem C10_dispatch_order (mimetype name : String) :
    (matchesPdf mimetype name = true → mediaKindOf mimetype name = some MediaKind.pdf)
    ∧ (matchesPdf mimetype name = false → matchesDocx mimetype name = true →
        mediaKindOf mimetype name = some MediaKind.docx)
    ∧ (matchesPdf mimetype name = false → matchesDocx mimetype name = false →
        matchesTxt mimetype name = true → mediaKindOf mimetype name = some MediaKind.txt)
    ∧ mediaKindOf "text/plain" "notes.pdf" = some MediaKind.pdf
    ∧ (∀ env t, env.pdfResult = Except.ok t → isBlank t = false →
        extractTextFromFile env "text/plain" "notes.pdf" = Except.ok t)
    ∧ mediaKindOf "text/plain" "notes.txt" = some MediaKind.txt := by
  refine ⟨fun h1 => by simp [mediaKindOf, h1],
          fun h1 h2 => by simp [mediaKindOf, h1, h2],
          fun h1 h2 h3 => by simp [mediaKindOf, h1, h2, h3],
          by decide, ?_, by decide⟩
  intro env t h hb
  have hk : mediaKindOf "text/plain" "notes.pdf" = some MediaKind.pdf := by decide
  unfold extractTextFromFile rawExtract
  rw [hk, h]
  simp [hb]

/-- Witness for C10_dispatch_order: the first guard fires on a declared PDF
MIME type, and the routing conclusion evaluates on a concrete environment. -/
theorem C10_dispatch_order_witness :
    mediaKindOf "application/pdf" "scan" = some MediaKind.pdf
    ∧ extractTextFromFile ⟨Except.ok "page one", Except.ok "", ""⟩
        "text/plain" "notes.pdf" = Except.ok "page one" :=
  ⟨(C10_dispatch_order "application/pdf" "scan").1 (by decide),
   (C10_dispatch_order "text/plain" "notes.pdf").2.2.2.2.1
     ⟨Except.ok "page one", Except.ok "", ""⟩ "page one" rfl (by decide)⟩

/-- When no kind matches, the branch body throws the unsupported-type error. -/
theorem rawExtract_of_kind_none {env : ExtractEnv} {mimetype name : String}
    (h : mediaKindOf mimetype name = none) :
    rawExtract env mimetype name = Except.error (unsupportedMsg mimetype) := by
  unfold rawExtract
  rw [h]

/-- The wrapper fails exactly when the branch body throws or yields blank
text. -/
theorem extract_fail_raw (env : ExtractEnv) (mimetype name : String) :
    exceptOk (extractTextFromFile env mimetype name) = false ↔
      (exceptOk (rawExtract env mimetype name) = false
       ∨ ∃ t, rawExtract env mimetype name = Except.ok t ∧ isBlank t = true) := by
  unfold extractTextFromFile
  rcases h : rawExtract env mimetype name with e | t
  · simp [exceptOk]
  · by_cases hb : isBlank t
    · simp [exceptOk, hb]
    · simp [exceptOk, hb]

/-- Claim C4: extractTextFromFile fails exactly when the MIME type with
filename-extension fallback matches none of the three recognized kinds, or a
recognized kind's parse throws, or the extracted text is blank; the error is
respectively the wrapped unsupported-type message, the wrap of the parser's
own message, or the wrapped empty-content message, and in every other case
the extracted text is returned. -/
theorem C4_extract_contract (env : ExtractEnv) (mimetype name : String) :
    (exceptOk (extractTextFromFile env mimetype name) = false ↔
      (mediaKindOf mimetype name = none
       ∨ (∃ k, mediaKindOf mimetype name = some k
            ∧ exceptOk (rawExtract env mimetype name) = false)
       ∨ (∃ t, rawExtract env mimetype name = Except.ok t ∧ isBlank t = true)))
    ∧ (mediaKindOf mimetype name = none →
        extractTextFromFile env mimetype name
          = Except.error (wrapExtractError name (unsupportedMsg mimetype)))
    ∧ (∀ e, mediaKindOf mimetype name ≠ none →
        rawExtract env mimetype name = Except.error e →
        extractTextFromFile env mimetype name = Except.error (wrapExtractError name e))
    ∧ (∀ t, rawExtract env mimetype name = Except.ok t → isBlank t = true →
        extractTextFromFile env mimetype name
          = Except.error (wrapExtractError name emptyContentMsg))
    ∧ (∀ t, rawExtract env mimetype name = Except.ok t → isBlank t = false →
        extractTextFromFile env mimetype name = Except.ok t) := by
  refine ⟨?_, ?_, ?_, ?_, ?_⟩
  · rw [extract_fail_raw]
    constructor
    · rintro (hfail | ⟨t, ht, hb⟩)
      · rcases hk : mediaKindOf mimetype name with _ | k
        · exact Or.inl rfl
        · exact Or.inr (Or.inl ⟨k, rfl, hfail⟩)
      · exact Or.inr (Or.inr ⟨t, ht, hb⟩)
    · rintro (hk | ⟨k, hk, hfail⟩ | ⟨t, ht, hb⟩)
      · refine Or.inl ?_
        rw [rawExtract_of_kind_none hk]
        rfl
      · exact Or.inl hfail
      · exact Or.inr ⟨t, ht, hb⟩
  · intro hn
    unfold extractTextFromFile
    rw [rawExtract_of_kind_none hn]
  · intro e _ he
    unfold extractTextFromFile
    rw [he]
  · intro t ht hb
    unfold extractTextFromFile
    rw [ht]
    simp [hb]
  · intro t ht hb
    unfold extractTextFromFile
    rw [ht]
    simp [hb]

/-- Witness for C4_extract_contract: on a concrete environment, an
unrecognized type produces the wrapped unsupported-type error. -/
theorem C4_extract_contract_witness :
    extractTextFromFile ⟨Except.ok "x", Except.ok "y", "z"⟩ "image/png" "photo.png"
      = Except.error (wrapExtractError "photo.png" (unsupportedMsg "image/png")) :=
  (C4_extract_contract ⟨Except.ok "x", Except.ok "y", "z"⟩ "image/png" "photo.png").2.1
    (by decide)

/-- Claim C6: getUpcomingDeadlines returns exactly the rows that are not
completed and whose due date lies in the half-open window from now to thirty
days later, ordered by ascending due date; in particular a deadline due in
thirty-one days, a completed deadline due tomorrow, and an overdue incomplete
deadline are all excluded. -/
theorem C6_upcoming_deadlines (now : Int) (table : List Deadline) :
    (∀ d, d ∈ getUpcomingDeadlines now table ↔
       (d ∈ table ∧ d.isCompleted = false ∧ now ≤ d.dueDate
        ∧ d.dueDate < now + 30 * msPerDay))
    ∧ (getUpcomingDeadlines now table).Sorted dueLe
    ∧ (∀ d, d ∈ table → d.dueDate = now + 31 * msPerDay →
        d ∉ getUpcomingDeadlines now table)
    ∧ (∀ d, d ∈ table → d.isCompleted = true → d ∉ getUpcomingDeadlines now table)
    ∧ (∀ d, d ∈ table → d.dueDate < now → d ∉ getUpcomingDeadlines now table) := by
  have hmem : ∀ d, d ∈ getUpcomingDeadlines now table ↔
      (d ∈ table ∧ d.isCompleted = false ∧ now ≤ d.dueDate
       ∧ d.dueDate < now + 30 * msPerDay) := by
    intro d
    unfold getUpcomingDeadlines
    rw [List.mem_insertionSort, List.mem_filter]
    simp [upcomingPred, and_assoc]
  refine ⟨hmem, List.sorted_insertionSort dueLe _, ?_, ?_, ?_⟩
  · intro d _ hdue hin
    rcases (hmem d).1 hin with ⟨_, _, _, hlt⟩
    rw [hdue] at hlt
    simp only [msPerDay] at hlt
    omega
  · intro d _ hdone hin
    rcases (hmem d).1 hin with ⟨_, hfalse, _, _⟩
    rw [hdone] at hfalse
    exact Bool.noConfusion hfalse
  · intro d _ hover hin
    rcases (hmem d).1 hin with ⟨_, _, hge, _⟩
    omega

/-- Witness for C6_upcoming_deadlines on a one-row table: an incomplete
deadline due inside the window is returned. -/
theorem C6_upcoming_deadlines_witness :
    (⟨"d1", "c1", "Answer", none, 5, "filing", false, false, 0⟩ : Deadline)
      ∈ getUpcomingDeadlines 0
          [⟨"d1", "c1", "Answer", none, 5, "filing", false, false, 0⟩] :=
  ((C6_upcoming_deadlines 0
      [⟨"d1", "c1", "Answer", none, 5, "filing", false, false, 0⟩]).1
    ⟨"d1", "c1", "Answer", none, 5, "filing", false, false, 0⟩).2
    ⟨List.mem_singleton.mpr rfl, rfl, by decide, by decide⟩

/-- Claim C8: for an existing case row, updateCase overwrites exactly the
fields present in the partial payload, preserves every absent field, always
refreshes updatedAt to the current time, leaves id and createdAt untouched,
and leaves every row with a different id unchanged in the table. -/
theorem C8_updateCase_frame (now : Int) (table : List Case) (id : String)
    (p : CasePatch) (c : Case)
    (hfind : table.find? (fun c0 => c0.id == id) = some c) :
    ((updateCase now table id p).1 = some (applyCasePatch now c p))
    ∧ (p.title = none → (applyCasePatch now c p).title = c.title)
    ∧ (∀ v, p.title = some v → (applyCasePatch now c p).title = v)
    ∧ (p.caseNumber = none → (applyCasePatch now c p).caseNumber = c.caseNumber)
    ∧ (∀ v, p.caseNumber = some v → (applyCasePatch now c p).caseNumber = v)
    ∧ (p.plaintiff = none → (applyCasePatch now c p).plaintiff = c.plaintiff)
    ∧ (∀ v, p.plaintiff = some v → (applyCasePatch now c p).plaintiff = v)
    ∧ (p.defendant = none → (applyCasePatch now c p).defendant = c.defendant)
    ∧ (∀ v, p.defendant = some v → (applyCasePatch now c p).defendant = v)
    ∧ (p.jurisdiction = none → (applyCasePatch now c p).jurisdiction = c.jurisdiction)
    ∧ (∀ v, p.jurisdiction = some v → (applyCasePatch now c p).jurisdiction = v)
    ∧ (p.status = none → (applyCasePatch now c p).status = c.status)
    ∧ (∀ v, p.status = some v → (applyCasePatch now c p).status = v)
    ∧ (p.description = none → (applyCasePatch now c p).description = c.description)
    ∧ (∀ v, p.description = some v → (applyCasePatch now c p).description = v)
    ∧ ((applyCasePatch now c p).updatedAt = now)
    ∧ ((applyCasePatch now c p).id = c.id)
    ∧ ((applyCasePatch now c p).createdAt = c.createdAt)
    ∧ ((updateCase now table id p).2.length = table.length)
    ∧ (∀ c0, c0 ∈ table → c0.id ≠ id → c0 ∈ (updateCase now table id p).2) := by
  refine ⟨?_,
    fun h => by simp [applyCasePatch, h], fun v h => by simp [applyCasePatch, h],
    fun h => by simp [applyCasePatch, h], fun v h => by simp [applyCasePatch, h],
    fun h => by simp [applyCasePatch, h], fun v h => by simp [applyCasePatch, h],
    fun h => by simp [applyCasePatch, h], fun v h => by simp [applyCasePatch, h],
    fun h => by simp [applyCasePatch, h], fun v h => by simp [applyCasePatch, h],
    fun h => by simp [applyCasePatch, h], fun v h => by simp [applyCasePatch, h],
    fun h => by simp [applyCasePatch, h], fun v h => by simp [applyCasePatch, h],
    rfl, rfl, rfl, ?_, ?_⟩
  · unfold updateCase
    rw [hfind]
  · unfold updateCase
    rw [hfind]
    simp
  · intro c0 hc0 hne
    unfold updateCase
    rw [hfind]
    refine List.mem_map.mpr ⟨c0, hc0, ?_⟩
    simp [hne]

/-- Witness for C8_updateCase_frame: a status-only payload on a one-row
table preserves the title and refreshes updatedAt. -/
theorem C8_updateCase_frame_witness :
    (applyCasePatch 99
      ⟨"c1", "T", none, "P", "D", "Fed", "active", none, 0, 0⟩
      ⟨none, none, none, none, none, some "closed", none⟩).title = "T"
    ∧ (applyCasePatch 99
        ⟨"c1", "T", none, "P", "D", "Fed", "active", none, 0, 0⟩
        ⟨none, none, none, none, none, some "closed", none⟩).updatedAt = 99 := by
  have h := C8_updateCase_frame 99
    [⟨"c1", "T", none, "P", "D", "Fed", "active", none, 0, 0⟩] "c1"
    ⟨none, none, none, none, none, some "closed", none⟩
    ⟨"c1", "T", none, "P", "D", "Fed", "active", none, 0, 0⟩ (by decide)
  exact ⟨h.2.1 rfl, h.2.2.2.2.2.2.2.2.2.2.2.2.2.2.2.1⟩

/-- Claim C9 as stated quantifies over every concrete case id, and the empty
string is a concrete case id the store treats as falsy: with one general
(null case id) message in the table, the general query and the query for the
empty-string id return the same row, so the two results are not disjoint. -/
theorem C9_counterexample :
    getChatMessages [⟨"m1", none, "user", "hi", 0⟩] none
      = [⟨"m1", none, "user", "hi", 0⟩]
    ∧ getChatMessages [⟨"m1", none, "user", "hi", 0⟩] (some "")
      = [⟨"m1", none, "user", "hi", 0⟩] :=
  ⟨rfl, rfl⟩

/-- Claim C9, amended: for every non-empty concrete case id, the general
query and the case-scoped query return disjoint results: a null-case-id
message never appears in the case-scoped query, and a message carrying any
concrete case id never appears in the general query. -/
theorem C9_chat_partition (table : List ChatMessage) (c : String) (m : ChatMessage)
    (hc : c ≠ "") :
    (m ∈ getChatMessages table none → m ∉ getChatMessages table (some c))
    ∧ (m ∈ getChatMessages table (some c) → m ∉ getChatMessages table none)
    ∧ (m.caseId = none → m ∉ getChatMessages table (some c))
    ∧ (∀ c2, m.caseId = some c2 → m ∉ getChatMessages table none) := by
  have hmemN : ∀ m' : ChatMessage, m' ∈ getChatMessages table none ↔
      (m' ∈ table ∧ m'.caseId = none) := by
    intro m'
    unfold getChatMessages
    simp only [isTruthyOptStr, Bool.false_eq_true, if_false]
    rw [List.mem_insertionSort, List.mem_filter]
    simp
  have hmemC : ∀ m' : ChatMessage, m' ∈ getChatMessages table (some c) ↔
      (m' ∈ table ∧ m'.caseId = some c) := by
    intro m'
    unfold getChatMessages
    have hct : isTruthyOptStr (some c) = true := by
      simp [isTruthyOptStr, hc]
    rw [hct]
    simp only [if_true]
    rw [List.mem_insertionSort, List.mem_filter]
    simp
  refine ⟨?_, ?_, ?_, ?_⟩
  · intro hn hcs
    rcases (hmemN m).1 hn with ⟨_, h1⟩
    rcases (hmemC m).1 hcs with ⟨_, h2⟩
    rw [h1] at h2
    exact Option.noConfusion h2
  · intro hcs hn
    rcases (hmemN m).1 hn with ⟨_, h1⟩
    rcases (hmemC m).1 hcs with ⟨_, h2⟩
    rw [h1] at h2
    exact Option.noConfusion h2
  · intro h1 hcs
    rcases (hmemC m).1 hcs with ⟨_, h2⟩
    rw [h1] at h2
    exact Option.noConfusion h2
  · intro c2 h1 hn
    rcases (hmemN m).1 hn with ⟨_, h2⟩
    rw [h1] at h2
    exact Option.noConfusion h2

/-- Witness for C9_chat_partition: a message scoped to a concrete case is
absent from the general query. -/
theorem C9_chat_partition_witness :
    (⟨"m2", some "case-9", "user", "hello", 0⟩ : ChatMessage)
      ∉ getChatMessages [⟨"m2", some "case-9", "user", "hello", 0⟩] none :=
  (C9_chat_partition [⟨"m2", some "case-9", "user", "hello", 0⟩] "case-9"
      ⟨"m2", some "case-9", "user", "hello", 0⟩ (by decide)).2.2.2 "case-9" rfl

/-- Concrete case row used for the C2 scenario. -/
def C2case : Case :=
  ⟨"case-1", "Case 1", none, "P", "D", "Federal", "active", none, 0, 0⟩

/-- Environment for the C2 scenario: the case exists, the PDF parser
extracts text, the AI calls all fail. -/
def C2env : UploadEnv :=
  ⟨some C2case, ⟨Except.ok "Parsed pdf text", Except.ok "", ""⟩,
   LlmOutcome.callError, LlmOutcome.callError, LlmOutcome.callError, false⟩

/-- Upload request whose file declares an unlisted MIME type but carries a
pdf file extension. -/
def C2req : UploadRequest :=
  ⟨some ⟨"brief.pdf", "application/octet-stream", 1000⟩,
   some "case-1", some "Brief", some "Motion", none⟩

/-- Request whose file has neither an accepted MIME type nor an accepted
extension, so the fileFilter rejects it. -/
def C2reqW : UploadRequest :=
  ⟨some ⟨"virus.bin", "application/x-msdownload", 5⟩,
   some "case-1", some "Brief", some "Motion", none⟩

/-- Claim C2 as stated is false at an explicit input: a file whose declared
MIME type is not one of the three accepted types is still accepted by the
fileFilter through the extension fallback, the upload succeeds with 201, and
a Document store write occurs. -/
theorem C2_counterexample :
    allowedTypes.contains "application/octet-stream" = false
    ∧ (uploadRoute C2req C2env).status = 201
    ∧ (uploadRoute C2req C2env).body.isSome = true
    ∧ (uploadRoute C2req C2env).writes.length = 1 :=
  ⟨by decide, rfl, rfl, rfl⟩

/-- Claim C2, amended: an upload whose file has a MIME type outside the
accepted list and a lowercase filename extension outside the accepted list is
rejected by the fileFilter before the handler body runs, answering 500 with
no response document and no store write. -/
theorem C2_reject_no_store_write (req : UploadRequest) (env : UploadEnv) (f : FilePart)
    (hf : req.file = some f)
    (hm : allowedTypes.contains f.mimetype = false)
    (he : allowedExtensions.contains (fileExtensionOf f.originalname) = false) :
    (uploadRoute req env).status = 500
    ∧ (uploadRoute req env).body = none
    ∧ (uploadRoute req env).writes = [] := by
  unfold uploadRoute
  rw [hf]
  have hacc : fileFilterAccepts f.mimetype f.originalname = false := by
    unfold fileFilterAccepts
    rw [hm, he]
    rfl
  simp only [hacc, Bool.false_eq_true, if_false]
  exact ⟨trivial, trivial, trivial⟩

/-- Witness for C2_reject_no_store_write on a concrete rejected file. -/
theorem C2_reject_no_store_write_witness :
    (uploadRoute C2reqW C2env).status = 500
    ∧ (uploadRoute C2reqW C2env).body = none
    ∧ (uploadRoute C2reqW C2env).writes = [] :=
  C2_reject_no_store_write C2reqW C2env ⟨"virus.bin", "application/x-msdownload", 5⟩
    rfl (by decide) (by decide)

/-- Claim C3: for a valid request, an existing case, and obtained non-blank
text, a failing analyzeLegalDocument call is caught: the handler still
answers 201 with a persisted Document whose aiAnalysis field is null, and the
document insert is the only store write. -/
theorem C3_analysis_failure_nonfatal (req : UploadRequest) (env : UploadEnv)
    (caseItem : Case) (t : String)
    (hc : isTruthyOptStr req.caseId = true)
    (ht : isTruthyOptStr req.title = true)
    (hd : isTruthyOptStr req.documentType = true)
    (hcase : env.caseLookup = some caseItem)
    (htext : obtainText req env = Except.ok t)
    (hblank : isBlank t = false)
    (hanalyze : exceptOk (analyzeLegalDocument env.analyzeOutcome) = false) :
    (uploadHandler req env).status = 201
    ∧ ∃ d, (uploadHandler req env).body = some d
        ∧ d.aiAnalysis = none
        ∧ d.complianceCheck = none
        ∧ (uploadHandler req env).writes = [StoreWrite.insertDocument d] := by
  have hstep : aiStep env caseItem (req.documentType.getD "")
      = ⟨none, none, false, false, []⟩ := by
    unfold aiStep
    rcases hA : analyzeLegalDocument env.analyzeOutcome with e | a
    · rfl
    · rw [hA] at hanalyze
      simp [exceptOk] at hanalyze
  unfold uploadHandler
  rw [hc, ht, hd, hcase, htext]
  simp only [Bool.not_true, Bool.or_self, Bool.false_or, Bool.or_false, hblank,
    Bool.false_eq_true, if_false, hstep, List.nil_append]
  exact ⟨trivial, _, rfl, rfl, rfl, rfl⟩

/-- Concrete case row used for the C3 witness. -/
def C3case : Case :=
  ⟨"case-3", "Case 3", none, "P", "D", "Fed", "active", none, 0, 0⟩

/-- Environment for the C3 witness: the case exists and every AI call
throws. -/
def C3env : UploadEnv :=
  ⟨some C3case, ⟨Except.ok "", Except.ok "", ""⟩,
   LlmOutcome.callError, LlmOutcome.callError, LlmOutcome.callError, false⟩

/-- Manual-content request used for the C3 witness. -/
def C3req : UploadRequest :=
  ⟨none, some "case-3", some "T3", some "Motion", some "Hand-typed text"⟩

/-- Witness for C3_analysis_failure_nonfatal on a concrete request. -/
theorem C3_analysis_failure_nonfatal_witness :
    (uploadHandler C3req C3env).status = 201
    ∧ ∃ d, (uploadHandler C3req C3env).body = some d
        ∧ d.aiAnalysis = none
        ∧ d.complianceCheck = none
        ∧ (uploadHandler C3req C3env).writes = [StoreWrite.insertDocument d] :=
  C3_analysis_failure_nonfatal C3req C3env C3case "Hand-typed text"
    (by decide) (by decide) (by decide) rfl rfl (by decide) rfl

/-- Concrete case row used for the C5 scenario. -/
def C5case : Case :=
  ⟨"case-5", "Case 5", none, "P", "D", "State", "active", none, 0, 0⟩

/-- Environment for the C5 counterexample: the document analysis call
throws, while the compliance and learning calls would succeed. -/
def C5env : UploadEnv :=
  ⟨some C5case, ⟨Except.ok "", Except.ok "", "Complaint body text"⟩,
   LlmOutcome.callError, LlmOutcome.goodJson (Json.obj []),
   LlmOutcome.goodJson (Json.obj []), false⟩

/-- Claim C5 as stated is false at an explicit input: the submitted document
type lowercases to a string containing complaint, yet the compliance check is
not invoked, because the preceding analyzeLegalDocument call threw and
control jumped to the catch block. -/
theorem C5_counterexample :
    strContains (lowerStr "Complaint") "complaint" = true
    ∧ (aiStep C5env C5case "Complaint").complianceInvoked = false :=
  ⟨by decide, rfl⟩

/-- Claim C5, amended: in the upload pipeline's AI block the compliance
check is invoked exactly when analyzeLegalDocument succeeded and the document
type's lowercase form contains the substring complaint; when it is invoked
and succeeds, learnFromDocument returns a non-null result, and the
learning-data insert does not throw, exactly one LearningData write is
performed; and whatever the AI outcomes, the handler still answers 201 and
appends the document insert after any learning write. -/
theorem C5_compliance_learning (req : UploadRequest) (env : UploadEnv)
    (caseItem : Case) (t : String)
    (hc : isTruthyOptStr req.caseId = true)
    (ht : isTruthyOptStr req.title = true)
    (hd : isTruthyOptStr req.documentType = true)
    (hcase : env.caseLookup = some caseItem)
    (htext : obtainText req env = Except.ok t)
    (hblank : isBlank t = false) :
    ((aiStep env caseItem (req.documentType.getD "")).complianceInvoked = true ↔
      (exceptOk (analyzeLegalDocument env.analyzeOutcome) = true
       ∧ strContains (lowerStr (req.documentType.getD "")) "complaint" = true))
    ∧ (∀ cc lp, checkRule12b6Compliance env.complianceOutcome = Except.ok cc →
        learnFromDocument env.learnOutcome = some lp →
        env.learningInsertFails = false →
        (aiStep env caseItem (req.documentType.getD "")).complianceInvoked = true →
        (aiStep env caseItem (req.documentType.getD "")).writes
          = [StoreWrite.insertLearning
              ⟨"document_quality", caseItem.jurisdiction,
               req.documentType.getD "", lp, cc⟩])
    ∧ ((uploadHandler req env).status = 201
       ∧ ∃ d, (uploadHandler req env).body = some d
           ∧ (uploadHandler req env).writes
              = (aiStep env caseItem (req.documentType.getD "")).writes
                 ++ [StoreWrite.insertDocument d]) := by
  refine ⟨?_, ?_, ?_⟩
  · unfold aiStep
    rcases hA : analyzeLegalDocument env.analyzeOutcome with e | a
    · simp [exceptOk]
    · by_cases hcompl : strContains (lowerStr (req.documentType.getD "")) "complaint"
      · simp only [hcompl, if_true]
        rcases hC : checkRule12b6Compliance env.complianceOutcome with e | cc
        · simp [exceptOk, hcompl]
        · rcases hL : learnFromDocument env.learnOutcome with _ | lp
          · simp [exceptOk, hcompl]
          · by_cases hI : env.learningInsertFails <;> simp [hI, exceptOk, hcompl]
      · simp [hcompl, exceptOk]
  · intro cc lp hC hL hI hInv
    unfold aiStep at hInv ⊢
    rcases hA : analyzeLegalDocument env.analyzeOutcome with e | a
    · rw [hA] at hInv
      simp at hInv
    · rw [hA] at hInv
      by_cases hcompl : strContains (lowerStr (req.documentType.getD "")) "complaint"
      · simp [hcompl, hC, hL, hI]
      · simp [hcompl] at hInv
  · unfold uploadHandler
    rw [hc, ht, hd, hcase, htext]
    simp only [Bool.not_true, Bool.or_self, Bool.false_or, Bool.or_false, hblank,
      Bool.false_eq_true, if_false]
    exact ⟨trivial, _, rfl, rfl⟩

/-- Environment for the C5 witness: every AI call succeeds and the learning
insert does not throw. -/
def C5envW : UploadEnv :=
  ⟨some C5case, ⟨Except.ok "", Except.ok "", ""⟩,
   LlmOutcome.goodJson (Json.obj []), LlmOutcome.goodJson (Json.str "cc"),
   LlmOutcome.goodJson (Json.str "lp"), false⟩

/-- Manual-content complaint request used for the C5 witness. -/
def C5reqW : UploadRequest :=
  ⟨none, some "case-5", some "T5", some "Complaint", some "Body text"⟩

/-- Witness for C5_compliance_learning on a concrete complaint upload. -/
theorem C5_compliance_learning_witness :
    (aiStep C5envW C5case "Complaint").writes
      = [StoreWrite.insertLearning
          ⟨"document_quality", "State", "Complaint", Json.str "lp", Json.str "cc"⟩]
    ∧ (uploadHandler C5reqW C5envW).status = 201 := by
  have h := C5_compliance_learning C5reqW C5envW C5case "Body text"
    (by decide) (by decide) (by decide) rfl rfl (by decide)
  exact ⟨h.2.1 (Json.str "cc") (Json.str "lp") rfl rfl rfl
    (h.1.mpr ⟨rfl, by decide⟩), h.2.2.1⟩

end LawBuddy
